import Mathlib

/-!
# Verification of the voice_grow content resolution & acquisition pipeline

Shallow embedding of the vector semantic-search layer
(`server/app/services/vector_service.py`, whose full code is given in
`docs/plans/2026-02-20-vector-search.md`), of the `get_content_by_name`
vector fallback and the `create_content` vector sync from the same plan,
and of the admin download-task poller
(`admin/src/pages/youtube/YouTubeDownload.tsx`,
`admin/src/api/youtube.ts`).

Numeric similarity scores are modelled over `ℚ`; the embedding backend
(sentence-transformers) and the ChromaDB client are modelled as explicit
parameters: an `encode` function that may fail (Python exceptions become
`Except` errors), a distance function (ChromaDB cosine distance,
`distance = 1 - similarity`), and error flags for each ChromaDB call.
The ChromaDB collection is a list of embedding records; `query` follows
ChromaDB's contract: metadata-filter, order by ascending distance, return
the first `n_results`.
-/

namespace VoiceGrow

/-- One record of the ChromaDB collection `contents`: stored under
`ids=[str(content_id)]` with embedding and metadata
`{"title": title, "content_type": content_type}`. -/
structure EmbRecord (Emb : Type) where
  id : Nat
  embedding : Emb
  title : String
  content_type : String
deriving DecidableEq

/-- The embedding backend and ChromaDB client, as explicit effects.
`encode` models `SentenceTransformer.encode` (an `Except.error` models a
raised exception); `dist` models ChromaDB cosine distance; the `*Err`
fields, when `some`, model the corresponding ChromaDB call raising. -/
structure VectorBackend (Emb : Type) where
  encode : String → Except String Emb
  dist : Emb → Emb → ℚ
  upsertErr : Option String
  queryErr : Option String
  deleteErr : Option String
  countErr : Option String

/-- State of `VectorSearchService`: the `_ready` flag set by
`initialize()`, and the ChromaDB collection contents. -/
structure VectorSearchService (Emb : Type) where
  backend : VectorBackend Emb
  ready : Bool
  collection : List (EmbRecord Emb)

/-- Constant `SIMILARITY_THRESHOLD = 0.72` from `vector_service.py`. -/
def SIMILARITY_THRESHOLD : ℚ := 72 / 100

/-- Python `round(x, 3)`: round to the nearest multiple of `1/1000`. -/
def round3 (q : ℚ) : ℚ := (round (q * 1000) : ℤ) / 1000

/-- ChromaDB upsert of a single record: replace the record with the same
id when one exists, otherwise append. -/
def upsertRecord {Emb : Type} (coll : List (EmbRecord Emb)) (r : EmbRecord Emb) :
    List (EmbRecord Emb) :=
  if coll.any (fun x => x.id = r.id) then
    coll.map (fun x => if x.id = r.id then r else x)
  else coll ++ [r]

/-- Candidate ordering used by ChromaDB `query`: ascending distance. -/
def candLE {Emb : Type} (a b : EmbRecord Emb × ℚ) : Prop := a.2 ≤ b.2

instance {Emb : Type} : DecidableRel (@candLE Emb) :=
  fun a b => inferInstanceAs (Decidable (a.2 ≤ b.2))

instance {Emb : Type} : IsTotal (EmbRecord Emb × ℚ) candLE :=
  ⟨fun a b => le_total a.2 b.2⟩

instance {Emb : Type} : IsTrans (EmbRecord Emb × ℚ) candLE :=
  ⟨fun _ _ _ => le_trans⟩

/-- ChromaDB `collection.query`: restrict to the `where` metadata filter,
order by ascending cosine distance to the query embedding, return the
first `n_results` records with their distances. -/
def collQuery {Emb : Type} (dist : Emb → Emb → ℚ) (coll : List (EmbRecord Emb))
    (qv : Emb) (whereType : Option String) (nResults : Nat) :
    List (EmbRecord Emb × ℚ) :=
  let cands : List (EmbRecord Emb) := match whereType with
    | some t => coll.filter (fun r => r.content_type = t)
    | none => coll
  (List.insertionSort candLE (cands.map (fun r => (r, dist qv r.embedding)))).take nResults

/-- Method `VectorSearchService.add_content`: no-op returning `False` when not
ready; encode the title and upsert under `ids=[str(content_id)]`; any
exception is caught and turned into `False`. Returns the Python result
paired with the successor service state. -/
def VectorSearchService.add_content {Emb : Type} (svc : VectorSearchService Emb)
    (content_id : Nat) (title : String) (content_type : String) :
    Bool × VectorSearchService Emb :=
  if svc.ready = false then (false, svc)
  else
    match svc.backend.encode title with
    | .error _ => (false, svc)
    | .ok v =>
      match svc.backend.upsertErr with
      | some _ => (false, svc)
      | none =>
          let r : EmbRecord Emb := ⟨content_id, v, title, content_type⟩
          (true, { svc with collection := upsertRecord svc.collection r })

/-- Method `VectorSearchService.search`: no-op returning `[]` when not ready;
encode the query, ChromaDB-query with
`n_results = min(top_k, max(count, 1))` and the optional `content_type`
metadata filter (Python falsiness: an empty string disables the filter),
keep the hits with `similarity = 1 - distance >= SIMILARITY_THRESHOLD` as
`(content_id, round(similarity, 3), title)`; any exception is caught and
turned into `[]`. -/
def VectorSearchService.search {Emb : Type} (svc : VectorSearchService Emb)
    (query : String) (content_type : Option String) (top_k : Nat) :
    List (Nat × ℚ × String) :=
  if svc.ready = false then []
  else
    match svc.backend.encode query with
    | .error _ => []
    | .ok qv =>
      match svc.backend.queryErr with
      | some _ => []
      | none =>
        let whereType := match content_type with
          | some t => if t = "" then none else some t
          | none => none
        let res := collQuery svc.backend.dist svc.collection qv whereType
          (min top_k (max svc.collection.length 1))
        res.filterMap (fun p =>
          let similarity := 1 - p.2
          if SIMILARITY_THRESHOLD ≤ similarity then
            some (p.1.id, round3 similarity, p.1.title)
          else none)

/-- Method `VectorSearchService.delete_content`: no-op returning `False` when not
ready; delete by id; any exception is caught and turned into `False`. -/
def VectorSearchService.delete_content {Emb : Type} (svc : VectorSearchService Emb)
    (content_id : Nat) : Bool × VectorSearchService Emb :=
  if svc.ready = false then (false, svc)
  else
    match svc.backend.deleteErr with
    | some _ => (false, svc)
    | none =>
        (true, { svc with collection :=
          svc.collection.filter (fun r => ¬ r.id = content_id) })

/-- Method `VectorSearchService.count`: `0` when not ready or on exception,
otherwise the collection record count. -/
def VectorSearchService.count {Emb : Type} (svc : VectorSearchService Emb) : Nat :=
  if svc.ready = false then 0
  else
    match svc.backend.countErr with
    | some _ => 0
    | none => svc.collection.length

/-- A catalog entry as returned by the content query layer. -/
structure ContentRecord where
  id : Nat
  category : String
  title : String
deriving DecidableEq

/-- Modelled from the spec: the MySQL exact/fuzzy lookup stages of
`get_content_by_name` and the `get_content_by_id` accessor live in
`server/app/services/content/query.py`, which is not part of this tree
(only the vector-fallback tail is, in the plan document). Per §4.1/§6
they are catalog accessors: `byName` is the combined exact/fuzzy stage
within a category, `byId` the primary-key lookup. -/
structure Catalog where
  byName : String → String → Option ContentRecord
  byId : Nat → Option ContentRecord

/-- Method `get_content_by_name` with the vector fallback tail from the plan:
return the MySQL hit when there is one; otherwise, when a vector service
is present and ready, search it with `top_k = 1` and on a hit resolve
the best id through `get_content_by_id`; otherwise return `None`. -/
def get_content_by_name {Emb : Type} (cat : Catalog)
    (vector : Option (VectorSearchService Emb)) (name : String)
    (content_type : String) : Option ContentRecord :=
  match cat.byName name content_type with
  | some c => some c
  | none =>
    match vector with
    | some v =>
      if v.ready then
        match v.search name (some content_type) 1 with
        | (best_id, _, _) :: _ => cat.byId best_id
        | [] => none
      else none
    | none => none

/-- The dict `create_content` returns to its caller, reduced to the
fields the vector sync uses. -/
structure ContentDict where
  id : Nat
  title : String
  content_type : String
deriving DecidableEq

/-- The tail of `create_content` after the MySQL record `new_content`
has been created: when a vector service is present and ready, call
`add_content` inside a `try/except` (the service state advances, but
neither a `False` result nor an exception is allowed to escape), and in
every case return the result dict of the freshly created record. -/
def create_content {Emb : Type} (vector : Option (VectorSearchService Emb))
    (new_id : Nat) (title : String) (content_type : String) :
    ContentDict × Option (VectorSearchService Emb) :=
  let vector' : Option (VectorSearchService Emb) :=
    match vector with
    | some v =>
        if v.ready then some (v.add_content new_id title content_type).2
        else some v
    | none => none
  (⟨new_id, title, content_type⟩, vector')

/-- An operation against the vector store, as issued by the content
service: `add` from `create_content`/`index_all_contents`, `del` from
content deactivation. -/
inductive VOp where
  | add (content_id : Nat) (title : String) (content_type : String)
  | del (content_id : Nat)

/-- Apply one operation to the service state. -/
def applyOp {Emb : Type} (svc : VectorSearchService Emb) : VOp → VectorSearchService Emb
  | .add i t ct => (svc.add_content i t ct).2
  | .del i => (svc.delete_content i).2

/-! ## Admin download-task poller (`YouTubeDownload.tsx`, `youtube.ts`) -/

/-- Interface `DownloadTask` from `admin/src/api/youtube.ts` (fields used by the
poller and the progress bar). -/
structure DownloadTask where
  task_id : String
  url : String
  status : String
  completed_count : Nat
  failed_count : Nat
  total_count : Nat
deriving DecidableEq

/-- Constant `TERMINAL_STATUSES` from `YouTubeDownload.tsx`. -/
def TERMINAL_STATUSES : List String := ["completed", "failed", "cancelled"]

/-- The `refetchInterval` callback of the task poller query:
`false` (here `none`) when there is no task data or the task status is
terminal, otherwise 2500 milliseconds. -/
def refetchInterval (task : Option DownloadTask) : Option Nat :=
  match task with
  | none => none
  | some t => if TERMINAL_STATUSES.contains t.status then none else some 2500

/-! ## Acquisition task orchestrator (modelled from the spec) -/

/-- Per-track status, `admin/src/api/youtube.ts` `statusConfig` /
spec §4.4. -/
inductive TrackStatus where
  | pending
  | extracting_info
  | downloading
  | uploading
  | creating_record
  | completed
  | failed
  | cancelled
deriving DecidableEq

/-- A track status is terminal when no further transition leaves it. -/
def TrackStatus.isTerminal : TrackStatus → Bool
  | .completed => true
  | .failed => true
  | .cancelled => true
  | _ => false

/-- Modelled from the spec: the server-side acquisition task orchestrator
(`server/app/services/download_service.py`) is not part of this tree;
only its client (`youtube.ts`, `YouTubeDownload.tsx`) is. Per §3 an
AcquisitionTask carries the track list, the aggregate counts and the
total; per §3's counting invariant every terminal track is accounted for
in `completed_count + failed_count`, so a cancelled track is carried in
`failed_count`. -/
structure AcquisitionTask where
  tracks : List TrackStatus
  completed_count : Nat
  failed_count : Nat
  total_count : Nat
  cancelRequested : Bool

/-- The forward pipeline of §4.4:
`pending → extracting_info → downloading → uploading → creating_record`. -/
def progressNext : TrackStatus → Option TrackStatus
  | .pending => some .extracting_info
  | .extracting_info => some .downloading
  | .downloading => some .uploading
  | .uploading => some .creating_record
  | _ => none

/-- Modelled from the spec: `submit(urls, ...)` creates a task with all
tracks `pending` and counts `0/0/n`. -/
def submitTask (n : Nat) : AcquisitionTask :=
  ⟨List.replicate n .pending, 0, 0, n, false⟩

/-- Modelled from the spec: one orchestrator step on a task — advance a
track along the pipeline, complete a `creating_record` track
(incrementing `completed_count`), fail any non-terminal track
(incrementing `failed_count`), or honor a cancellation on a `pending`
track (terminal `cancelled`, carried in `failed_count`). -/
inductive TaskStep : AcquisitionTask → AcquisitionTask → Prop where
  | progress (t : AcquisitionTask) (i : Nat) (s s2 : TrackStatus)
      (hi : t.tracks.get? i = some s) (hn : progressNext s = some s2) :
      TaskStep t { t with tracks := t.tracks.set i s2 }
  | complete (t : AcquisitionTask) (i : Nat)
      (hi : t.tracks.get? i = some .creating_record) :
      TaskStep t { t with tracks := t.tracks.set i .completed,
                          completed_count := t.completed_count + 1 }
  | fail (t : AcquisitionTask) (i : Nat) (s : TrackStatus)
      (hi : t.tracks.get? i = some s) (hs : s.isTerminal = false) :
      TaskStep t { t with tracks := t.tracks.set i .failed,
                          failed_count := t.failed_count + 1 }
  | cancel (t : AcquisitionTask) (i : Nat)
      (hi : t.tracks.get? i = some .pending) :
      TaskStep t { t with tracks := t.tracks.set i .cancelled,
                          failed_count := t.failed_count + 1,
                          cancelRequested := true }

/-- Tasks reachable from some submission by orchestrator steps: every
observation point of a task's lifecycle. -/
inductive ReachableTask : AcquisitionTask → Prop where
  | init (n : Nat) : ReachableTask (submitTask n)
  | step {t t2 : AcquisitionTask} (h : ReachableTask t) (hs : TaskStep t t2) :
      ReachableTask t2

/-- Task-level aggregate status label, §4.4. -/
inductive TaskState where
  | running
  | completed
  | failed
  | cancelled
deriving DecidableEq

/-- Modelled from the spec: the aggregate task status — terminal exactly
when every track is terminal; `cancelled` when an operator cancellation
was honored, `completed` when at least one track succeeded, `failed`
otherwise. -/
def taskStatus (t : AcquisitionTask) : TaskState :=
  if t.tracks.all TrackStatus.isTerminal then
    if t.cancelRequested then .cancelled
    else if t.tracks.any (fun s => s = .completed) then .completed
    else .failed
  else .running

/-- A task status is terminal when it is `completed`, `failed` or
`cancelled`. -/
def TaskState.isTerminal : TaskState → Bool
  | .running => false
  | _ => true

/-- Number of tracks currently in a given status. -/
def countStatus (tracks : List TrackStatus) (s : TrackStatus) : Nat :=
  (tracks.filter (fun x => x = s)).length

/-- Number of tracks in a non-terminal status. -/
def nonTerminalCount (tracks : List TrackStatus) : Nat :=
  (tracks.filter (fun s => s.isTerminal = false)).length

/-! ## Concrete fixtures used in example instances -/

/-- A healthy backend over `Nat` embeddings: every encode succeeds, every
distance is 0, no ChromaDB call raises. -/
def natBackend : VectorBackend Nat :=
  ⟨fun _ => .ok 0, fun _ _ => 0, none, none, none, none⟩

/-- A broken backend: every encode raises and every ChromaDB call
raises. -/
def failingBackend : VectorBackend Nat :=
  ⟨fun _ => .error "boom", fun _ _ => 0, some "boom", some "boom", some "boom",
    some "boom"⟩

/-- A ready service holding the single record of spec Scenario A. -/
def svcStory : VectorSearchService Nat :=
  ⟨natBackend, true, [⟨1, 0, "小紅帽童話故事", "story"⟩]⟩

/-- A ready service with an empty collection. -/
def svcEmpty : VectorSearchService Nat := ⟨natBackend, true, []⟩

/-- A small catalog: `byName` misses the Scenario A query, `byId` resolves
content 1. -/
def catFixture : Catalog :=
  ⟨fun name ct =>
      if name = "白雪公主" && ct = "story" then some ⟨2, "story", "白雪公主"⟩
      else none,
    fun i => if i = 1 then some ⟨1, "story", "小紅帽童話故事"⟩ else none⟩

/-! ## Helper lemmas -/

theorem round3_mono {a b : ℚ} (h : a ≤ b) : round3 a ≤ round3 b := by
  unfold round3
  have h1 : round (a * 1000) ≤ round (b * 1000) := by
    rw [round_eq, round_eq]
    exact Int.floor_le_floor (by linarith)
  have h2 : ((round (a * 1000) : ℤ) : ℚ) ≤ ((round (b * 1000) : ℤ) : ℚ) :=
    Int.cast_le.2 h1
  linarith

theorem floor_le_round3 {q : ℚ} (h : SIMILARITY_THRESHOLD ≤ q) :
    SIMILARITY_THRESHOLD ≤ round3 q := by
  unfold SIMILARITY_THRESHOLD at h ⊢
  have h720 : (720 : ℤ) ≤ round (q * 1000) := by
    rw [round_eq, Int.le_floor]
    push_cast
    linarith
  have h2 : (720 : ℚ) ≤ ((round (q * 1000) : ℤ) : ℚ) := by
    exact_mod_cast h720
  unfold round3
  linarith

theorem collQuery_length_le {Emb : Type} (dist : Emb → Emb → ℚ)
    (coll : List (EmbRecord Emb)) (qv : Emb) (whereType : Option String)
    (nResults : Nat) : (collQuery dist coll qv whereType nResults).length ≤ nResults := by
  unfold collQuery
  simp [List.length_take]

/-! ## Claims -/

/-- C1: every `(id, similarity, title)` tuple returned by
`VectorSearchService.search` has `similarity >= SIMILARITY_THRESHOLD`
(0.72); no result strictly below the floor is ever returned. -/
theorem search_respects_similarity_floor {Emb : Type}
    (svc : VectorSearchService Emb) (query : String) (ct : Option String)
    (top_k : Nat) (hit : Nat × ℚ × String)
    (hmem : hit ∈ svc.search query ct top_k) :
    SIMILARITY_THRESHOLD ≤ hit.2.1 := by
  unfold VectorSearchService.search at hmem
  split at hmem
  · simp at hmem
  · split at hmem
    · simp at hmem
    · split at hmem
      · simp at hmem
      · rw [List.mem_filterMap] at hmem
        obtain ⟨p, _, hp⟩ := hmem
        by_cases hth : SIMILARITY_THRESHOLD ≤ 1 - p.2
        · simp only [hth, if_pos] at hp
          have hhit := Option.some.inj hp
          subst hhit
          exact floor_le_round3 hth
        · simp only [hth, if_neg, if_false] at hp
          cases hp

/-- C1 witness: a concrete ready service whose single record is at
distance 0 from the query embedding; the hit `(1, 1, "小紅帽童話故事")` is
returned and its similarity is at least the floor. -/
theorem search_respects_similarity_floor_witness :
    SIMILARITY_THRESHOLD ≤
      ((1, 1, "小紅帽童話故事") : Nat × ℚ × String).2.1 :=
  search_respects_similarity_floor
    (⟨⟨fun _ => .ok 0, fun _ _ => 0, none, none, none, none⟩, true,
      [⟨1, 0, "小紅帽童話故事", "story"⟩]⟩ : VectorSearchService Nat)
    "小红帽" none 1 (1, 1, "小紅帽童話故事")
    (by
      unfold VectorSearchService.search collQuery
      simp [List.insertionSort, List.orderedInsert, SIMILARITY_THRESHOLD, round3]
      norm_num [round_eq])

/-- C10: `VectorSearchService.search` returns at most `top_k` results:
it requests `n_results = min(top_k, max(count, 1))` candidates and the
threshold filter only shrinks that list. -/
theorem search_length_le_top_k {Emb : Type} (svc : VectorSearchService Emb)
    (query : String) (ct : Option String) (top_k : Nat) :
    (svc.search query ct top_k).length ≤ top_k := by
  unfold VectorSearchService.search
  split
  · simp
  · split
    · simp
    · split
      · simp
      · refine le_trans (List.length_filterMap_le _ _) ?_
        refine le_trans (collQuery_length_le _ _ _ _ _) ?_
        exact min_le_left _ _

theorem collQuery_sorted {Emb : Type} (dist : Emb → Emb → ℚ)
    (coll : List (EmbRecord Emb)) (qv : Emb) (whereType : Option String)
    (nResults : Nat) : (collQuery dist coll qv whereType nResults).Pairwise candLE := by
  unfold collQuery
  exact List.Pairwise.sublist (List.take_sublist _ _)
    (List.sorted_insertionSort candLE _)

/-- C8: the list returned by `VectorSearchService.search` is ordered by
descending similarity — whenever hit `i` precedes hit `j`, the similarity
of hit `i` is at least that of hit `j`. -/
theorem search_sorted_desc {Emb : Type} (svc : VectorSearchService Emb)
    (query : String) (ct : Option String) (top_k : Nat) :
    (svc.search query ct top_k).Pairwise (fun a b => b.2.1 ≤ a.2.1) := by
  unfold VectorSearchService.search
  split
  · simp
  · split
    · simp
    · split
      · simp
      · rw [List.pairwise_filterMap]
        refine List.Pairwise.imp ?_ (collQuery_sorted _ _ _ _ _)
        intro a b hab x hx y hy
        unfold candLE at hab
        by_cases ha : SIMILARITY_THRESHOLD ≤ 1 - a.2
        · by_cases hb : SIMILARITY_THRESHOLD ≤ 1 - b.2
          · simp only [ha, hb, if_pos, Option.mem_def, Option.some.injEq] at hx hy
            subst hx
            subst hy
            exact round3_mono (by linarith)
          · simp only [hb, if_neg, if_false] at hy
            cases hy
        · simp only [ha, if_neg, if_false] at hx
          cases hx

theorem svcStory_search_eval :
    svcStory.search "小红帽" (some "story") 1 = [(1, 1, "小紅帽童話故事")] := by
  unfold VectorSearchService.search svcStory natBackend collQuery
  simp [List.insertionSort, List.orderedInsert, SIMILARITY_THRESHOLD, round3]
  norm_num [round_eq, List.filterMap_cons]

/-- C3: when the service is not ready every operation is a no-op
returning its degraded value — `add_content` is `False` with the state
untouched, `search` is `[]`, `delete_content` is `False` with the state
untouched, and `count` is `0`. -/
theorem not_ready_noops {Emb : Type} (svc : VectorSearchService Emb)
    (h : svc.ready = false) :
    (∀ i t ct, svc.add_content i t ct = (false, svc)) ∧
    (∀ q ct k, svc.search q ct k = []) ∧
    (∀ i, svc.delete_content i = (false, svc)) ∧
    svc.count = 0 := by
  refine ⟨fun i t ct => ?_, fun q ct k => ?_, fun i => ?_, ?_⟩ <;>
    simp [VectorSearchService.add_content, VectorSearchService.search,
      VectorSearchService.delete_content, VectorSearchService.count, h]

/-- C3 witness: a concrete not-ready service; each degraded value
instantiated. -/
theorem not_ready_noops_witness :
    ((⟨natBackend, false, []⟩ : VectorSearchService Nat).add_content 1 "小紅帽童話故事"
        "story" = (false, ⟨natBackend, false, []⟩)) ∧
    ((⟨natBackend, false, []⟩ : VectorSearchService Nat).search "小红帽" none 3 = []) ∧
    ((⟨natBackend, false, []⟩ : VectorSearchService Nat).delete_content 1 =
        (false, ⟨natBackend, false, []⟩)) ∧
    (⟨natBackend, false, []⟩ : VectorSearchService Nat).count = 0 :=
  ⟨(not_ready_noops ⟨natBackend, false, []⟩ rfl).1 1 "小紅帽童話故事" "story",
    (not_ready_noops ⟨natBackend, false, []⟩ rfl).2.1 "小红帽" none 3,
    (not_ready_noops ⟨natBackend, false, []⟩ rfl).2.2.1 1,
    (not_ready_noops ⟨natBackend, false, []⟩ rfl).2.2.2⟩

/-- C4: when the embedding or a ChromaDB call fails, `add_content`
returns `False` with the state untouched and `search` returns `[]`; and
`create_content` always hands its result dict back to the caller, so an
indexing or semantic-search failure never propagates. -/
theorem backend_errors_degrade {Emb : Type} (svc : VectorSearchService Emb)
    (i : Nat) (title ct q : String) (octs : Option String) (k : Nat) :
    (((svc.backend.encode title).isOk = false ∨ svc.backend.upsertErr.isSome = true) →
        svc.add_content i title ct = (false, svc)) ∧
    (((svc.backend.encode q).isOk = false ∨ svc.backend.queryErr.isSome = true) →
        svc.search q octs k = []) ∧
    (∀ vec : Option (VectorSearchService Emb),
        (create_content vec i title ct).1 = ⟨i, title, ct⟩) := by
  refine ⟨?_, ?_, fun vec => rfl⟩
  · intro h
    unfold VectorSearchService.add_content
    split
    · rfl
    · match henc : svc.backend.encode title with
      | .error e => rfl
      | .ok v =>
        match hup : svc.backend.upsertErr with
        | some e => rfl
        | none =>
            rcases h with h | h
            · rw [henc] at h
              cases h
            · rw [hup] at h
              cases h
  · intro h
    unfold VectorSearchService.search
    split
    · rfl
    · match henc : svc.backend.encode q with
      | .error e => rfl
      | .ok v =>
        match hq : svc.backend.queryErr with
        | some e => rfl
        | none =>
            rcases h with h | h
            · rw [henc] at h
              cases h
            · rw [hq] at h
              cases h

/-- C4 witness: a ready service whose backend raises on every call. -/
theorem backend_errors_degrade_witness :
    ((⟨failingBackend, true, []⟩ : VectorSearchService Nat).add_content 1
        "小紅帽童話故事" "story" = (false, ⟨failingBackend, true, []⟩)) ∧
    ((⟨failingBackend, true, []⟩ : VectorSearchService Nat).search "小红帽" none 3
        = []) ∧
    (create_content (some (⟨failingBackend, true, []⟩ : VectorSearchService Nat))
        1 "小紅帽童話故事" "story").1 = ⟨1, "小紅帽童話故事", "story"⟩ :=
  ⟨(backend_errors_degrade ⟨failingBackend, true, []⟩ 1 "小紅帽童話故事" "story"
      "小红帽" none 3).1 (Or.inl rfl),
    (backend_errors_degrade ⟨failingBackend, true, []⟩ 1 "小紅帽童話故事" "story"
      "小红帽" none 3).2.1 (Or.inl rfl),
    (backend_errors_degrade ⟨failingBackend, true, []⟩ 1 "小紅帽童話故事" "story"
      "小红帽" none 3).2.2 _⟩

/-- C2: `get_content_by_name` consults the vector search only after the
catalog lookup misses, queries it with `top_k = 1`, resolves a hit
through `get_content_by_id`, and returns a miss when the search is
empty, the service is not ready, or the service is absent. -/
theorem resolution_vector_fallback {Emb : Type} (cat : Catalog)
    (name ct : String) :
    (∀ (vec : Option (VectorSearchService Emb)) (c : ContentRecord),
        cat.byName name ct = some c →
        get_content_by_name cat vec name ct = some c) ∧
    (∀ (vs : VectorSearchService Emb) (best_id : Nat) (s : ℚ) (ti : String)
        (rest : List (Nat × ℚ × String)),
        cat.byName name ct = none → vs.ready = true →
        vs.search name (some ct) 1 = (best_id, s, ti) :: rest →
        get_content_by_name cat (some vs) name ct = cat.byId best_id) ∧
    (∀ vs : VectorSearchService Emb,
        cat.byName name ct = none → vs.ready = true →
        vs.search name (some ct) 1 = [] →
        get_content_by_name cat (some vs) name ct = none) ∧
    (∀ vs : VectorSearchService Emb,
        cat.byName name ct = none → vs.ready = false →
        get_content_by_name cat (some vs) name ct = none) ∧
    (cat.byName name ct = none →
        @get_content_by_name Emb cat none name ct = none) := by
  refine ⟨?_, ?_, ?_, ?_, ?_⟩
  · intro vec c hc
    unfold get_content_by_name
    rw [hc]
  · intro vs best_id s ti rest hn hr hs
    unfold get_content_by_name
    rw [hn]
    simp [hr, hs]
  · intro vs hn hr hs
    unfold get_content_by_name
    rw [hn]
    simp [hr, hs]
  · intro vs hn hr
    unfold get_content_by_name
    rw [hn]
    simp [hr]
  · intro hn
    unfold get_content_by_name
    rw [hn]

/-- C2 witness: Scenario A — catalog misses the query `小红帽`, the vector
hit `(1, 1, 小紅帽童話故事)` resolves through `byId 1`. -/
theorem resolution_vector_fallback_witness :
    get_content_by_name catFixture (some svcStory) "小红帽" "story" =
      catFixture.byId 1 :=
  (resolution_vector_fallback catFixture "小红帽" "story").2.1 svcStory 1 1
    "小紅帽童話故事" [] rfl rfl svcStory_search_eval

/-- C7: resolution is deterministic for a fixed catalog and vector-index
snapshot — two `get_content_by_name` calls with the same title, category,
catalog and service state return the same record or the same miss. -/
theorem resolve_deterministic {Emb : Type} (cat₁ cat₂ : Catalog)
    (v₁ v₂ : Option (VectorSearchService Emb)) (name ct : String)
    (hc : cat₁ = cat₂) (hv : v₁ = v₂) :
    get_content_by_name cat₁ v₁ name ct = get_content_by_name cat₂ v₂ name ct := by
  subst hc
  subst hv
  rfl

/-- C7 witness: two calls against the same frozen fixture agree. -/
theorem resolve_deterministic_witness :
    get_content_by_name catFixture (some svcStory) "小红帽" "story" =
      get_content_by_name catFixture (some svcStory) "小红帽" "story" :=
  resolve_deterministic catFixture catFixture (some svcStory) (some svcStory)
    "小红帽" "story" rfl rfl

theorem upsertRecord_nodup {Emb : Type} (coll : List (EmbRecord Emb))
    (r : EmbRecord Emb) (h : (coll.map (fun x => x.id)).Nodup) :
    ((upsertRecord coll r).map (fun x => x.id)).Nodup := by
  unfold upsertRecord
  split
  · have hmap : ∀ x : EmbRecord Emb, (if x.id = r.id then r else x).id = x.id := by
      intro x
      split
      · next hx => exact hx.symm
      · rfl
    rw [List.map_map]
    have heq : coll.map ((fun x => x.id) ∘ fun x => if x.id = r.id then r else x)
        = coll.map (fun x => x.id) :=
      List.map_congr_left (fun a _ => hmap a)
    rw [heq]
    exact h
  · next hany =>
      have hnotin : r.id ∉ coll.map (fun x => x.id) := by
        intro hmem
        obtain ⟨x, hx, hxid⟩ := List.mem_map.1 hmem
        exact hany (List.any_eq_true.2 ⟨x, hx, by simp [hxid]⟩)
      rw [List.map_append, List.nodup_append]
      refine ⟨h, List.nodup_singleton _, ?_⟩
      intro a ha hb
      rw [List.map_singleton, List.mem_singleton] at hb
      subst hb
      exact hnotin ha

theorem filter_map_nodup {Emb : Type} (coll : List (EmbRecord Emb))
    (p : EmbRecord Emb → Bool) (h : (coll.map (fun x => x.id)).Nodup) :
    (((coll.filter p).map (fun x => x.id)).Nodup) :=
  List.Nodup.sublist (List.Sublist.map _ (List.filter_sublist _)) h

theorem applyOp_nodup {Emb : Type} (op : VOp) (svc : VectorSearchService Emb)
    (h : (svc.collection.map (fun x => x.id)).Nodup) :
    (((applyOp svc op).collection.map (fun x => x.id)).Nodup) := by
  cases op with
  | add i t ct =>
    show (((svc.add_content i t ct).2).collection.map (fun x => x.id)).Nodup
    unfold VectorSearchService.add_content
    split
    · exact h
    · split
      · exact h
      · split
        · exact h
        · exact upsertRecord_nodup _ _ h
  | del i =>
    show (((svc.delete_content i).2).collection.map (fun x => x.id)).Nodup
    unfold VectorSearchService.delete_content
    split
    · exact h
    · split
      · exact h
      · exact filter_map_nodup _ _ h

theorem foldl_applyOp_nodup {Emb : Type} :
    ∀ (ops : List VOp) (svc : VectorSearchService Emb),
      (svc.collection.map (fun x => x.id)).Nodup →
      (((ops.foldl applyOp svc).collection.map (fun x => x.id)).Nodup)
  | [], _, h => h
  | op :: ops, svc, h =>
      foldl_applyOp_nodup ops (applyOp svc op) (applyOp_nodup op svc h)

theorem nodup_ids_filter_le_one {Emb : Type} :
    ∀ (coll : List (EmbRecord Emb)), (coll.map (fun x => x.id)).Nodup →
      ∀ i : Nat, ((coll.filter (fun r => r.id = i)).length ≤ 1)
  | [], _, _ => by simp
  | x :: xs, h, i => by
      rw [List.map_cons, List.nodup_cons] at h
      rw [List.filter_cons]
      by_cases hx : x.id = i
      · rw [if_pos (by simp [hx])]
        have hnil : xs.filter (fun r => decide (r.id = i)) = [] := by
          rw [List.filter_eq_nil_iff]
          intro a ha hai
          rw [decide_eq_true_eq] at hai
          exact h.1 (List.mem_map.2 ⟨a, ha, by rw [hai, hx]⟩)
        rw [hnil]
        simp
      · rw [if_neg (by simp [hx])]
        exact nodup_ids_filter_le_one xs h.2 i

/-- C5: the vector store holds at most one embedding record per content
identifier — `add_content` upserts under the identifier, so repeated
calls overwrite rather than duplicate, and the uniqueness invariant is
preserved by every sequence of `add_content`/`delete_content`
operations. -/
theorem vector_store_unique_ids {Emb : Type} (svc : VectorSearchService Emb)
    (ops : List VOp) (h : (svc.collection.map (fun x => x.id)).Nodup) :
    (((ops.foldl applyOp svc).collection.map (fun x => x.id)).Nodup) ∧
    ∀ i : Nat, (((ops.foldl applyOp svc).collection.filter
        (fun r => r.id = i)).length ≤ 1) := by
  have hn := foldl_applyOp_nodup ops svc h
  exact ⟨hn, nodup_ids_filter_le_one _ hn⟩

/-- C5 witness: two adds of id 1 (second with another title), an add of
id 2 and a delete leave pairwise-distinct ids and at most one record
under id 1. -/
theorem vector_store_unique_ids_witness :
    ((([VOp.add 1 "小紅帽童話故事" "story", VOp.add 1 "小红帽" "story",
          VOp.add 2 "白雪公主" "story", VOp.del 2].foldl applyOp
          svcEmpty).collection.map (fun x => x.id)).Nodup) ∧
    (([VOp.add 1 "小紅帽童話故事" "story", VOp.add 1 "小红帽" "story",
          VOp.add 2 "白雪公主" "story", VOp.del 2].foldl applyOp
          svcEmpty).collection.filter (fun r => r.id = 1)).length ≤ 1 :=
  ⟨(vector_store_unique_ids svcEmpty _ (by simp [svcEmpty])).1,
    (vector_store_unique_ids svcEmpty _ (by simp [svcEmpty])).2 1⟩

theorem countStatus_cons (x : TrackStatus) (l : List TrackStatus) (s : TrackStatus) :
    countStatus (x :: l) s = (if x = s then 1 else 0) + countStatus l s := by
  unfold countStatus
  rw [List.filter_cons]
  by_cases hx : x = s
  · rw [if_pos (by simp [hx]), if_pos hx, List.length_cons]
    omega
  · rw [if_neg (by simp [hx]), if_neg hx]
    omega

theorem countStatus_append (l₁ l₂ : List TrackStatus) (s : TrackStatus) :
    countStatus (l₁ ++ l₂) s = countStatus l₁ s + countStatus l₂ s := by
  unfold countStatus
  rw [List.filter_append, List.length_append]

theorem countStatus_replicate_ne (n : Nat) (a st : TrackStatus) (h : ¬ a = st) :
    countStatus (List.replicate n a) st = 0 := by
  induction n with
  | zero => rfl
  | succ n ih => rw [List.replicate_succ, countStatus_cons, if_neg h, ih]

theorem nonTerminalCount_cons (x : TrackStatus) (l : List TrackStatus) :
    nonTerminalCount (x :: l) =
      (if x.isTerminal = false then 1 else 0) + nonTerminalCount l := by
  unfold nonTerminalCount
  rw [List.filter_cons]
  by_cases hx : x.isTerminal = false
  · rw [if_pos (by simp [hx]), if_pos hx, List.length_cons]
    omega
  · rw [if_neg (by simp [hx]), if_neg hx]
    omega

theorem countStatus_set_eq (l₁ l₂ : List TrackStatus) (s s2 st : TrackStatus) :
    countStatus (l₁ ++ s2 :: l₂) st + (if s = st then 1 else 0) =
      countStatus (l₁ ++ s :: l₂) st + (if s2 = st then 1 else 0) := by
  rw [countStatus_append, countStatus_append, countStatus_cons, countStatus_cons]
  by_cases h1 : s = st <;> by_cases h2 : s2 = st <;> simp [h1, h2] <;> omega

theorem set_decomp {α : Type} :
    ∀ (l : List α) (i : Nat) (s : α), l.get? i = some s →
      ∃ l₁ l₂, l = l₁ ++ s :: l₂ ∧ ∀ s2, l.set i s2 = l₁ ++ s2 :: l₂
  | [], _, s, h => by simp at h
  | x :: xs, 0, s, h => by
      obtain rfl : x = s := by simpa using h
      exact ⟨[], xs, rfl, fun s2 => rfl⟩
  | x :: xs, i + 1, s, h => by
      obtain ⟨l₁, l₂, he, hset⟩ := set_decomp xs i s (by simpa using h)
      refine ⟨x :: l₁, l₂, by simp [he], fun s2 => ?_⟩
      show x :: xs.set i s2 = (x :: l₁) ++ s2 :: l₂
      rw [hset s2]
      rfl

theorem reachable_counts {t : AcquisitionTask} (h : ReachableTask t) :
    t.total_count = t.tracks.length ∧
    t.completed_count = countStatus t.tracks .completed ∧
    t.failed_count = countStatus t.tracks .failed +
      countStatus t.tracks .cancelled := by
  induction h with
  | init n =>
      refine ⟨by simp [submitTask], ?_, ?_⟩
      · exact (countStatus_replicate_ne n .pending .completed (by simp)).symm
      · show (0 : Nat) = _
        rw [show (submitTask n).tracks = List.replicate n .pending from rfl,
          countStatus_replicate_ne n .pending .failed (by simp),
          countStatus_replicate_ne n .pending .cancelled (by simp)]
  | step h hs ih =>
      obtain ⟨htot, hc, hf⟩ := ih
      cases hs with
      | progress i s s2 hi hn =>
          obtain ⟨l₁, l₂, he, hset⟩ := set_decomp _ _ _ hi
          rw [he] at htot hc hf
          refine ⟨?_, ?_, ?_⟩ <;>
              dsimp only <;> rw [hset s2] <;>
              cases s <;> simp [progressNext] at hn <;> subst hn <;>
              simp [countStatus_append, countStatus_cons, List.length_append,
                List.length_cons] at htot hc hf ⊢ <;> omega
      | complete i hi =>
          obtain ⟨l₁, l₂, he, hset⟩ := set_decomp _ _ _ hi
          rw [he] at htot hc hf
          refine ⟨?_, ?_, ?_⟩ <;>
              dsimp only <;> rw [hset .completed] <;>
              simp [countStatus_append, countStatus_cons, List.length_append,
                List.length_cons] at htot hc hf ⊢ <;> omega
      | fail i s hi hs2 =>
          obtain ⟨l₁, l₂, he, hset⟩ := set_decomp _ _ _ hi
          rw [he] at htot hc hf
          refine ⟨?_, ?_, ?_⟩ <;>
              dsimp only <;> rw [hset .failed] <;>
              cases s <;> simp [TrackStatus.isTerminal] at hs2 <;>
              simp [countStatus_append, countStatus_cons, List.length_append,
                List.length_cons] at htot hc hf ⊢ <;> omega
      | cancel i hi =>
          obtain ⟨l₁, l₂, he, hset⟩ := set_decomp _ _ _ hi
          rw [he] at htot hc hf
          refine ⟨?_, ?_, ?_⟩ <;>
              dsimp only <;> rw [hset .cancelled] <;>
              simp [countStatus_append, countStatus_cons, List.length_append,
                List.length_cons] at htot hc hf ⊢ <;> omega

theorem tracks_partition (tracks : List TrackStatus) :
    countStatus tracks .completed +
      (countStatus tracks .failed + countStatus tracks .cancelled) +
      nonTerminalCount tracks = tracks.length := by
  induction tracks with
  | nil => rfl
  | cons x xs ih =>
      rw [countStatus_cons, countStatus_cons, countStatus_cons,
        nonTerminalCount_cons, List.length_cons]
      cases x <;> simp [TrackStatus.isTerminal] <;> omega

theorem nonTerminalCount_zero_of_all_terminal {tracks : List TrackStatus}
    (h : tracks.all TrackStatus.isTerminal = true) : nonTerminalCount tracks = 0 := by
  unfold nonTerminalCount
  rw [List.length_eq_zero, List.filter_eq_nil_iff]
  intro a ha hnt
  rw [decide_eq_true_eq] at hnt
  have := List.all_eq_true.1 h a ha
  rw [this] at hnt
  cases hnt

theorem taskStatus_terminal_all {t : AcquisitionTask}
    (h : (taskStatus t).isTerminal = true) :
    t.tracks.all TrackStatus.isTerminal = true := by
  unfold taskStatus at h
  by_cases hall : t.tracks.all TrackStatus.isTerminal = true
  · exact hall
  · rw [if_neg hall] at h
    simp [TaskState.isTerminal] at h

/-- C6: at every observation point of an acquisition task,
`completed_count + failed_count <= total_count`; once the task status is
terminal, `completed_count + failed_count` plus the number of tracks in a
non-terminal status equals `total_count`; and the two sides are equal
whenever every track is terminal. -/
theorem task_counts_invariant (t : AcquisitionTask) (h : ReachableTask t) :
    t.completed_count + t.failed_count ≤ t.total_count ∧
    ((taskStatus t).isTerminal = true →
      t.completed_count + t.failed_count + nonTerminalCount t.tracks =
        t.total_count) ∧
    (t.tracks.all TrackStatus.isTerminal = true →
      t.completed_count + t.failed_count = t.total_count) := by
  obtain ⟨htot, hc, hf⟩ := reachable_counts h
  have hpart := tracks_partition t.tracks
  refine ⟨by omega, ?_, ?_⟩
  · intro hterm
    have h0 := nonTerminalCount_zero_of_all_terminal (taskStatus_terminal_all hterm)
    omega
  · intro hall
    have h0 := nonTerminalCount_zero_of_all_terminal hall
    omega

/-- C6 witness: a freshly submitted task of three tracks satisfies the
count bound. -/
theorem task_counts_invariant_witness :
    (submitTask 3).completed_count + (submitTask 3).failed_count ≤
      (submitTask 3).total_count :=
  (task_counts_invariant (submitTask 3) (ReachableTask.init 3)).1

/-- C9: the admin task-progress poller stops polling exactly at a
terminal state — the `refetchInterval` callback returns `false` (`none`)
iff there is no task data or the status is in `TERMINAL_STATUSES`, and
returns 2500 milliseconds for every other status. -/
theorem refetch_stops_iff_terminal (task : Option DownloadTask) :
    (refetchInterval task = none ↔
      task = none ∨ ∃ t, task = some t ∧
        TERMINAL_STATUSES.contains t.status = true) ∧
    (∀ t, task = some t → TERMINAL_STATUSES.contains t.status = false →
      refetchInterval task = some 2500) := by
  cases task with
  | none => simp [refetchInterval]
  | some t =>
      constructor
      · by_cases hc : TERMINAL_STATUSES.contains t.status = true
        · simp [refetchInterval, hc]
        · simp [refetchInterval, hc]
      · intro t2 ht2 hcf
        obtain rfl := Option.some.inj ht2
        show (if TERMINAL_STATUSES.contains t.status then none else some 2500) =
          some 2500
        rw [if_neg (fun hcc => by rw [hcf] at hcc; cases hcc)]

/-- C9 witness: a task mid-download keeps polling at 2500 ms; a completed
task stops. -/
theorem refetch_stops_iff_terminal_witness :
    refetchInterval (some ⟨"t1", "u", "downloading", 0, 0, 3⟩) = some 2500 ∧
    refetchInterval (some ⟨"t1", "u", "completed", 3, 0, 3⟩) = none :=
  ⟨(refetch_stops_iff_terminal (some ⟨"t1", "u", "downloading", 0, 0, 3⟩)).2
      ⟨"t1", "u", "downloading", 0, 0, 3⟩ rfl rfl,
    (refetch_stops_iff_terminal (some ⟨"t1", "u", "completed", 3, 0, 3⟩)).1.2
      (Or.inr ⟨⟨"t1", "u", "completed", 3, 0, 3⟩, rfl, rfl⟩)⟩

end VoiceGrow
